import Mathlib

/-!
Shallow embedding of the A2A protocol hosting layer
(`src/localguide/a2a_hosting.py`): the JSON-RPC envelope, the
`message/send` task executor, the message-content extractor and the
dispatcher, together with theorems settling the specification claims.

Python `dict[str, Any]` values are modelled as association lists of
string keys and `Json` values; Python exceptions are modelled with
`Except String`, the error string standing for `str(e)`.
-/

set_option autoImplicit false

namespace A2A

/-- Model of a decoded JSON value (the result of `request.json()` and the
contents of the untyped `dict[str, Any]` fields in the source). Numbers are
modelled as integers; no claim exercises fractional numbers. -/
inductive Json where
  | null
  | bool (b : Bool)
  | num (n : Int)
  | str (s : String)
  | arr (elems : List Json)
  | obj (fields : List (String × Json))

/-- Model of a Python dict with string keys: an association list. -/
abbrev JObj := List (String × Json)

/-- Model of `d.get(key)` / `d.get(key, default)` (via `Option.getD`):
the value of the first binding of `key`, if any. -/
def jlookup : JObj → String → Option Json
  | [], _ => none
  | (k, v) :: rest, key => if k = key then some v else jlookup rest key

/-- Python truthiness of a JSON-decoded value, as used by
`if text:` and `[message] if message else []` in the source. -/
def Json.truthy : Json → Bool
  | .null => false
  | .bool b => b
  | .num n => decide (n ≠ 0)
  | .str s => !s.isEmpty
  | .arr elems => !elems.isEmpty
  | .obj fields => !fields.isEmpty

/-- The loop body of `extract_user_message`: scan the `parts` list in
order, collecting `part.get("text", "")` (as the raw value appended to
`text_parts`) for every part with `part.get("kind") == "text"` whose text
is truthy. A part that is not a dict makes `part.get` raise
`AttributeError`, modelled as an error. -/
def collectTextParts : List Json → Except String (List Json)
  | [] => .ok []
  | part :: rest =>
    match part with
    | .obj p =>
      match jlookup p "kind" with
      | some (.str k) =>
        if k = "text" then
          let text := (jlookup p "text").getD (.str "")
          if text.truthy then
            match collectTextParts rest with
            | .ok ts => .ok (text :: ts)
            | .error e => .error e
          else collectTextParts rest
        else collectTextParts rest
      | _ => collectTextParts rest
    | _ => .error "AttributeError: part object has no attribute get"

/-- Model of `" ".join(text_parts)`: succeeds only when every collected
element is a string (Python raises `TypeError` otherwise). -/
def asStrings : List Json → Option (List String)
  | [] => some []
  | .str s :: rest => (asStrings rest).map (s :: ·)
  | _ :: _ => none

/-- Model of `" ".join(text_parts)` on the collected values. -/
def pyStrJoin (texts : List Json) : Except String String :=
  match asStrings texts with
  | some ss => .ok (String.intercalate " " ss)
  | none => .error "TypeError: sequence item: expected str instance"

/-- Model of `extract_user_message(message)` (a2a_hosting.py lines
190-214): read `message.get("parts", [])`, collect the truthy texts of the
parts whose kind is `"text"`, and either join them with single spaces or
raise `ValueError("No text content found in message parts")` when none
were collected. A `message` that is not a dict raises `AttributeError`;
a `parts` value that is a non-empty string or dict iterates over
characters/keys, which are strings without a `.get` attribute, and an
empty string/dict iterates zero times; other non-list values raise
`TypeError`. -/
def extract_user_message : Json → Except String String
  | .obj m =>
    match (jlookup m "parts").getD (.arr []) with
    | .arr parts =>
      match collectTextParts parts with
      | .ok text_parts =>
        if text_parts.isEmpty then
          .error "No text content found in message parts"
        else
          pyStrJoin text_parts
      | .error e => .error e
    | .str s =>
      if s.isEmpty then .error "No text content found in message parts"
      else .error "AttributeError: part object has no attribute get"
    | .obj o =>
      if o.isEmpty then .error "No text content found in message parts"
      else .error "AttributeError: part object has no attribute get"
    | _ => .error "TypeError: parts object is not iterable"
  | _ => .error "AttributeError: message object has no attribute get"

/-- Spec-side description of the extracted content, following the spec's
words for the Message Extractor contract (refinement claim C7): "scan
parts in order; for every part whose kind equals \x22text\x22 and whose text
field is non-empty, append it to an accumulator". -/
def specTextParts : List Json → List String
  | [] => []
  | part :: rest =>
    match part with
    | .obj p =>
      match jlookup p "kind" with
      | some (.str k) =>
        if k = "text" then
          match jlookup p "text" with
          | some (.str t) =>
            if t.isEmpty then specTextParts rest else t :: specTextParts rest
          | _ => specTextParts rest
        else specTextParts rest
      | _ => specTextParts rest
    | _ => specTextParts rest

/-- A part contributes text: it is a mapping whose kind is the string
`"text"` and whose text field is a non-empty string. -/
def partNonemptyText : Json → Bool
  | .obj p =>
    (match jlookup p "kind" with
     | some (.str k) => decide (k = "text")
     | _ => false)
    && (match jlookup p "text" with
        | some (.str t) => !t.isEmpty
        | _ => false)
  | _ => false

/-- The `text` field of a part conforms to the `MessagePart` data model:
absent, null, or a string. -/
def wfTextField (p : JObj) : Bool :=
  match jlookup p "text" with
  | none => true
  | some .null => true
  | some (.str _) => true
  | some _ => false

/-- A part conforms to the `MessagePart` data model: a mapping whose
`text` field, when present, is a string (or null). -/
def wfPart : Json → Bool
  | .obj p => wfTextField p
  | _ => false

/-- All parts of a message conform to the `MessagePart` data model. -/
def wfParts (parts : List Json) : Bool := parts.all wfPart

/-- List-level membership of a character sequence. -/
def startsWithChars : List Char → List Char → Bool
  | [], _ => true
  | _ :: _, [] => false
  | a :: as, b :: bs => a == b && startsWithChars as bs

/-- Whether `needle` occurs as a contiguous run inside `hay`. -/
def hasSubChars (needle : List Char) : List Char → Bool
  | [] => startsWithChars needle []
  | c :: rest => startsWithChars needle (c :: rest) || hasSubChars needle rest

/-- Case-sensitive substring containment on strings. -/
def strContains (hay sub : String) : Bool :=
  hasSubChars sub.data hay.data

/-- Model of the `MessagePart` pydantic model: kind defaults to
`"text"`, text defaults to `None`. -/
structure MessagePart where
  kind : String := "text"
  text : Option String := none

/-- Model of the `AgentMessage` pydantic model. The `messageId`, a
`uuid4` in the source, is passed in explicitly. -/
structure AgentMessage where
  kind : String := "message"
  role : String
  messageId : String
  parts : List MessagePart := []

/-- Model of the `TaskStatus` pydantic model. -/
structure TaskStatus where
  state : String
  message : Option AgentMessage := none

/-- Model of the `Artifact` pydantic model; the `artifactId` uuid is
passed in explicitly. -/
structure Artifact where
  kind : String := "artifact"
  artifactId : String
  parts : List MessagePart := []
  metadata : JObj := []

/-- Model of the `Task` pydantic model. `history` keeps the raw message
dicts (`list[dict[str, Any]]` in the source). -/
structure Task where
  kind : String := "task"
  id : String
  contextId : Option String := none
  status : TaskStatus
  history : List Json := []
  artifacts : List Artifact := []
  metadata : JObj := []

/-- The uuid4 values generated during one `handle_message_send` call:
the task id, the `messageId` of the synthesized reply dict, the
`artifactId` of the response artifact, and the `messageId` of the
status message. -/
structure Ids where
  taskId : String
  replyMsgId : String
  artifactId : String
  statusMsgId : String

/-- Pydantic validation of the `contextId` value passed to
`Task(contextId=...)`: the field is `Optional[str]`, so `None` (absent
key or JSON null) and strings are accepted and anything else raises a
`ValidationError` (a `ValueError`), which escapes `handle_message_send`
because the fallback `Task` built in the `except` block revalidates the
same value. -/
def validateContextId : Option Json → Except String (Option String)
  | none => .ok none
  | some .null => .ok none
  | some (.str s) => .ok (some s)
  | some _ => .error "ValidationError: contextId is not a valid string"

/-- Whether a JSON value is a mapping (a Python dict). -/
def Json.isObj : Json → Bool
  | .obj _ => true
  | _ => false

/-- Pydantic validation of the `history` value passed to
`Task(history=...)`: the field is `list[dict[str, Any]]`, so every item
must be a mapping; otherwise the construction raises a
`ValidationError`. -/
def validateHistory (history : List Json) : Except String (List Json) :=
  if history.all Json.isObj then .ok history
  else .error "ValidationError: history item is not a valid dictionary"

/-- The two calls inside the `try` block of `handle_message_send` that
can fail as task execution: `extract_user_message(message)` followed by
`await agent.run(user_message)`. The external agent capability is
modelled as a function from the prompt to either the reply text
(`result.text`) or the exception message. -/
def runTask (agentRun : String → Except String String) (message : Json) :
    Except String String :=
  match extract_user_message message with
  | .ok user_message => agentRun user_message
  | .error e => .error e

/-- The `response_message` dict synthesized on success (a2a_hosting.py
lines 240-250): kind `"message"`, role `"agent"`, a fresh messageId and
a single text part with the agent's reply. -/
def response_message (messageId text : String) : Json :=
  .obj [("kind", .str "message"), ("role", .str "agent"),
        ("messageId", .str messageId),
        ("parts", .arr [.obj [("kind", .str "text"), ("text", .str text)]])]

/-- Model of `handle_message_send(agent, params)` (a2a_hosting.py lines
217-290). Reads `params.get("contextId")` and `params.get("message", {})`,
runs extraction and the agent inside the `try`, and builds either the
completed or the failed `Task`. Pydantic validation of the `contextId`
and `history` fields is made explicit; when it fails the `ValidationError`
(a `ValueError`) escapes, because the `except` branch rebuilds a `Task`
from the same values and fails the same way. -/
def handle_message_send (agentRun : String → Except String String)
    (ids : Ids) (params : JObj) : Except String Task :=
  let context_id := jlookup params "contextId"
  let message := (jlookup params "message").getD (.obj [])
  match runTask agentRun message with
  | .ok text =>
    match validateContextId context_id,
        validateHistory [message, response_message ids.replyMsgId text] with
    | .ok contextId, .ok history =>
      .ok { id := ids.taskId
            contextId := contextId
            status :=
              { state := "completed"
                message := some { role := "agent", messageId := ids.statusMsgId
                                  parts := [{ text := some "Task completed successfully" }] } }
            history := history
            artifacts := [{ artifactId := ids.artifactId
                            parts := [{ kind := "text", text := some text }]
                            metadata := [] }]
            metadata := [] }
    | .error e, _ => .error e
    | _, .error e => .error e
  | .error e =>
    match validateContextId context_id,
        validateHistory (if message.truthy then [message] else []) with
    | .ok contextId, .ok history =>
      .ok { id := ids.taskId
            contextId := contextId
            status :=
              { state := "failed"
                message := some { role := "agent", messageId := ids.statusMsgId
                                  parts := [{ text := some ("Error: " ++ e) }] } }
            history := history
            artifacts := []
            metadata := [("error", .str e)] }
    | .error e2, _ => .error e2
    | _, .error e2 => .error e2

/-- A JSON-RPC request/response id: `Optional[str | int]` in the source,
with `none` for null/absent. -/
inductive RpcId where
  | str (s : String)
  | num (n : Int)

/-- Serialization of an optional id (null when absent). -/
def rpcIdJson : Option RpcId → Json
  | none => .null
  | some (.str s) => .str s
  | some (.num n) => .num n

/-- Model of the `JsonRpcRequest` pydantic model after validation. -/
structure JsonRpcRequest where
  jsonrpc : String
  method : String
  params : JObj
  id : Option RpcId

/-- Model of `JsonRpcRequest(**body)` on a decoded JSON object:
`jsonrpc: str = "2.0"`, `method: str` (required), `params: dict[str, Any]`
defaulting to `{}`, `id: Optional[str | int] = None`. Unknown keys are
ignored; a type mismatch raises a `ValidationError` (a `ValueError`). -/
def parseJsonRpcRequest (body : JObj) : Except String JsonRpcRequest := do
  let jsonrpc ← match jlookup body "jsonrpc" with
    | none => pure "2.0"
    | some (.str s) => pure s
    | some _ => throw "ValidationError: jsonrpc is not a valid string"
  let method ← match jlookup body "method" with
    | some (.str s) => pure s
    | none => throw "ValidationError: method field required"
    | some _ => throw "ValidationError: method is not a valid string"
  let params ← match jlookup body "params" with
    | none => pure ([] : JObj)
    | some (.obj o) => pure o
    | some _ => throw "ValidationError: params is not a valid dictionary"
  let id ← match jlookup body "id" with
    | none => pure (none : Option RpcId)
    | some .null => pure none
    | some (.str s) => pure (some (.str s))
    | some (.num n) => pure (some (.num n))
    | some _ => throw "ValidationError: id is not a valid string or integer"
  pure ⟨jsonrpc, method, params, id⟩

/-- Model of the `JsonRpcResponse` pydantic model. -/
structure JsonRpcResponse where
  jsonrpc : String := "2.0"
  result : Option Json := none
  error : Option Json := none
  id : Option RpcId := none

/-- The overridden `JsonRpcResponse.model_dump` (a2a_hosting.py lines
99-102): dump the fields in declaration order, then drop entries whose
value is `None` unless the key is `jsonrpc` or `id`. -/
def JsonRpcResponse.model_dump (r : JsonRpcResponse) : JObj :=
  [("jsonrpc", Json.str r.jsonrpc)]
    ++ (match r.result with | none => [] | some v => [("result", v)])
    ++ (match r.error with | none => [] | some v => [("error", v)])
    ++ [("id", rpcIdJson r.id)]

/-- Pydantic `model_dump` of a `MessagePart` (no null filtering here:
the override exists only on `JsonRpcResponse`). -/
def MessagePart.toJson (p : MessagePart) : Json :=
  .obj [("kind", .str p.kind),
        ("text", match p.text with | none => .null | some s => .str s)]

/-- Pydantic `model_dump` of an `AgentMessage`. -/
def AgentMessage.toJson (m : AgentMessage) : Json :=
  .obj [("kind", .str m.kind), ("role", .str m.role),
        ("messageId", .str m.messageId),
        ("parts", .arr (m.parts.map MessagePart.toJson))]

/-- Pydantic `model_dump` of a `TaskStatus`. -/
def TaskStatus.toJson (s : TaskStatus) : Json :=
  .obj [("state", .str s.state),
        ("message", match s.message with | none => .null | some m => m.toJson)]

/-- Pydantic `model_dump` of an `Artifact`. -/
def Artifact.toJson (a : Artifact) : Json :=
  .obj [("kind", .str a.kind), ("artifactId", .str a.artifactId),
        ("parts", .arr (a.parts.map MessagePart.toJson)),
        ("metadata", .obj a.metadata)]

/-- Pydantic `model_dump` of a `Task`, used as the JSON-RPC `result`. -/
def Task.toJson (t : Task) : Json :=
  .obj [("kind", .str t.kind), ("id", .str t.id),
        ("contextId", match t.contextId with | none => .null | some s => .str s),
        ("status", t.status.toJson),
        ("history", .arr t.history),
        ("artifacts", .arr (t.artifacts.map Artifact.toJson)),
        ("metadata", .obj t.metadata)]

/-- The error payload dicts built in the dispatcher,
`{"code": ..., "message": ...}`. -/
def errorBody (code : Int) (message : String) : Json :=
  .obj [("code", .num code), ("message", .str message)]

/-- Model of `body.get("id") if isinstance(body, dict) else None`
followed by pydantic validation of the `id` field of the
`JsonRpcResponse` being built in an `except` block: a raw id value that
is not a string, an integer, or null makes the response construction
itself raise, and that exception escapes the handler. -/
def bestEffortId (body : Json) : Except String (Option RpcId) :=
  match body with
  | .obj o =>
    match jlookup o "id" with
    | none => .ok none
    | some .null => .ok none
    | some (.str s) => .ok (some (.str s))
    | some (.num n) => .ok (some (.num n))
    | some _ => .error "ValidationError: id is not a valid string or integer"
  | _ => .ok none

/-- Observable outcome of one `POST /` request: either a JSON response
with an HTTP status code and a serialized body, or an exception that
escaped the endpoint handler and is left to the web framework (which
produces a bare 500, not JSON-RPC output). -/
inductive HttpOutcome where
  | response (statusCode : Nat) (body : JObj)
  | unhandled (exn : String)

/-- Model of the `handle_a2a_jsonrpc` endpoint (a2a_hosting.py lines
328-400). The raw request body is `none` when `await request.json()`
fails to decode (a `json.JSONDecodeError`, a `ValueError`): in that case
the `except ValueError` block evaluates `body.get("id")` with the local
`body` never assigned, so an `UnboundLocalError` escapes the handler.
A body that decodes to a non-mapping makes `JsonRpcRequest(**body)`
raise `TypeError`, which falls to the generic `except Exception` block
(code -32603, HTTP 500). A `ValueError` (pydantic validation, or one
escaping `handle_message_send`) produces code -32602 and HTTP 400 with
the best-effort id. -/
def handle_a2a_jsonrpc (agentRun : String → Except String String)
    (ids : Ids) (rawBody : Option Json) : HttpOutcome :=
  match rawBody with
  | none =>
    .unhandled "UnboundLocalError: local variable body referenced before assignment"
  | some body =>
    match body with
    | .obj o =>
      match parseJsonRpcRequest o with
      | .ok rpc_request =>
        if rpc_request.method = "message/send" then
          match handle_message_send agentRun ids rpc_request.params with
          | .ok task =>
            .response 200
              (JsonRpcResponse.model_dump
                ⟨"2.0", some task.toJson, none, rpc_request.id⟩)
          | .error e =>
            match bestEffortId body with
            | .ok i =>
              .response 400
                (JsonRpcResponse.model_dump
                  ⟨"2.0", none, some (errorBody (-32602) ("Invalid params: " ++ e)), i⟩)
            | .error e2 => .unhandled e2
        else if rpc_request.method = "tasks/get" then
          .response 501
            (JsonRpcResponse.model_dump
              ⟨"2.0", none,
               some (errorBody (-32601) "Method not implemented: tasks/get"),
               rpc_request.id⟩)
        else
          .response 404
            (JsonRpcResponse.model_dump
              ⟨"2.0", none,
               some (errorBody (-32601) ("Method not found: " ++ rpc_request.method)),
               rpc_request.id⟩)
      | .error e =>
        match bestEffortId body with
        | .ok i =>
          .response 400
            (JsonRpcResponse.model_dump
              ⟨"2.0", none, some (errorBody (-32602) ("Invalid params: " ++ e)), i⟩)
        | .error e2 => .unhandled e2
    | _ =>
      .response 500
        (JsonRpcResponse.model_dump
          ⟨"2.0", none,
           some (errorBody (-32603) "Internal error: request body is not a mapping"),
           none⟩)

/-- The failed `Task` built by the `except` branch of
`handle_message_send` (a2a_hosting.py lines 275-290), written out as a
function of the generated ids, the raw inbound message, the validated
contextId and the exception text. -/
def failedTask (ids : Ids) (msg : Json) (ctx : Option String) (e : String) : Task :=
  { id := ids.taskId
    contextId := ctx
    status :=
      { state := "failed"
        message := some { role := "agent", messageId := ids.statusMsgId
                          parts := [{ text := some ("Error: " ++ e) }] } }
    history := if msg.truthy then [msg] else []
    artifacts := []
    metadata := [("error", .str e)] }

/-- The completed `Task` built by the success branch of
`handle_message_send` (a2a_hosting.py lines 260-273), written out as a
function of the generated ids, the raw inbound message, the validated
contextId and the reply text. -/
def completedTask (ids : Ids) (msg : Json) (ctx : Option String) (text : String) : Task :=
  { id := ids.taskId
    contextId := ctx
    status :=
      { state := "completed"
        message := some { role := "agent", messageId := ids.statusMsgId
                          parts := [{ text := some "Task completed successfully" }] } }
    history := [msg, response_message ids.replyMsgId text]
    artifacts := [{ artifactId := ids.artifactId
                    parts := [{ kind := "text", text := some text }]
                    metadata := [] }]
    metadata := [] }

/-- Fixed uuid outcomes used by the concrete witness inputs. -/
def ids0 : Ids := ⟨"task-0", "reply-0", "artifact-0", "status-0"⟩

/-- An external agent capability that always replies successfully. -/
def agent0 : String → Except String String :=
  fun _ => .ok "Paris has the Eiffel Tower."

/-- An external agent capability whose call always fails. -/
def agentDown : String → Except String String :=
  fun _ => .error "timeout contacting model provider"

/-- A message dict carrying one non-empty text part. -/
def messageParis : JObj :=
  [("parts", .arr [.obj [("kind", .str "text"), ("text", .str "Tell me about Paris")]])]

/-- Params for `message/send` wrapping `messageParis`, no contextId. -/
def paramsParis : JObj := [("message", .obj messageParis)]

/-- A message dict whose single part has kind `"file"` (no text part). -/
def msgFileOnlyFields : JObj := [("parts", .arr [.obj [("kind", .str "file")]])]

/-- Params wrapping `msgFileOnlyFields`. -/
def paramsFileOnly : JObj := [("message", .obj msgFileOnlyFields)]

/-- A message dict carrying one text part with text `"hi"`. -/
def msgHi : Json :=
  .obj [("parts", .arr [.obj [("kind", .str "text"), ("text", .str "hi")]])]

/-- Params wrapping `msgHi` together with a string contextId. -/
def paramsHiCtx : JObj := [("message", msgHi), ("contextId", .str "ctx-42")]

/-- A decoded `message/send` request body wrapping `msgHi`, id 9. -/
def bodyHiFields : JObj :=
  [("method", .str "message/send"), ("params", .obj [("message", msgHi)]), ("id", .num 9)]

/-- A decoded `tasks/get` request body with arbitrary params, id 2. -/
def bodyTasksGetFields : JObj :=
  [("method", .str "tasks/get"), ("params", .obj [("foo", .num 3)]), ("id", .num 2)]

/-- The serialized response the dispatcher produces for
`bodyTasksGetFields`. -/
def dumpTasksGet : JObj :=
  JsonRpcResponse.model_dump
    ⟨"2.0", none, some (errorBody (-32601) "Method not implemented: tasks/get"),
     some (.num 2)⟩

/-- A decoded `message/send` request body whose params lacks the
`message` member. -/
def bodyNoMessageFields : JObj :=
  [("jsonrpc", .str "2.0"), ("method", .str "message/send"),
   ("params", .obj []), ("id", .num 1)]

/-- The serialized response the dispatcher produces for
`bodyNoMessageFields`. -/
def dumpNoMessage : JObj :=
  JsonRpcResponse.model_dump
    ⟨"2.0",
     some (failedTask ids0 (.obj []) none "No text content found in message parts").toJson,
     none, some (.num 1)⟩

/-- A single part of kind `"text"` with text `"hi"`. -/
def partTextHi : Json := .obj [("kind", .str "text"), ("text", .str "hi")]

theorem collectTextParts_of_wf (parts : List Json) (hwf : wfParts parts = true) :
    collectTextParts parts = .ok ((specTextParts parts).map Json.str) := by
  induction parts with
  | nil => rfl
  | cons part rest ih =>
    rw [wfParts, List.all_cons, Bool.and_eq_true] at hwf
    obtain ⟨hp, hrest⟩ := hwf
    have ihr := ih hrest
    cases part with
    | obj p =>
      rcases hk : jlookup p "kind" with _ | k
      · simp [collectTextParts, specTextParts, hk, ihr]
      · cases k with
        | str s =>
          by_cases hs : s = "text"
          · subst hs
            rcases ht : jlookup p "text" with _ | t
            · simp only [collectTextParts, specTextParts, hk, ht, Option.getD_none,
                Json.truthy, String.isEmpty, ihr]
              simp [ihr]
            · cases t with
              | null => simp [collectTextParts, specTextParts, hk, ht, Json.truthy, ihr]
              | str u =>
                by_cases hu : u.isEmpty
                · simp [collectTextParts, specTextParts, hk, ht, Json.truthy, hu, ihr]
                · simp [collectTextParts, specTextParts, hk, ht, Json.truthy, hu, ihr]
              | bool b => simp [wfPart, wfTextField, ht] at hp
              | num n => simp [wfPart, wfTextField, ht] at hp
              | arr es => simp [wfPart, wfTextField, ht] at hp
              | obj fs => simp [wfPart, wfTextField, ht] at hp
          · simp [collectTextParts, specTextParts, hk, hs, ihr]
        | null => simp [collectTextParts, specTextParts, hk, ihr]
        | bool b => simp [collectTextParts, specTextParts, hk, ihr]
        | num n => simp [collectTextParts, specTextParts, hk, ihr]
        | arr es => simp [collectTextParts, specTextParts, hk, ihr]
        | obj fs => simp [collectTextParts, specTextParts, hk, ihr]
    | null => simp [wfPart] at hp
    | bool b => simp [wfPart] at hp
    | num n => simp [wfPart] at hp
    | str s => simp [wfPart] at hp
    | arr es => simp [wfPart] at hp

theorem asStrings_map_str (ss : List String) :
    asStrings (ss.map Json.str) = some ss := by
  induction ss with
  | nil => rfl
  | cons s rest ih => simp [asStrings, ih]

theorem pyStrJoin_map_str (ss : List String) :
    pyStrJoin (ss.map Json.str) = .ok (String.intercalate " " ss) := by
  simp [pyStrJoin, asStrings_map_str]

/-- On a message whose parts conform to the data model, extraction
returns the spec-side texts joined with spaces, or the `ValueError` when
there are none. -/
theorem extract_eq_spec (m : JObj) (parts : List Json)
    (hp : jlookup m "parts" = some (.arr parts)) (hwf : wfParts parts = true) :
    extract_user_message (.obj m) =
      if specTextParts parts = [] then
        .error "No text content found in message parts"
      else
        .ok (String.intercalate " " (specTextParts parts)) := by
  have hc := collectTextParts_of_wf parts hwf
  by_cases hnil : specTextParts parts = []
  · simp [extract_user_message, hp, hc, hnil]
  · have hne : ((specTextParts parts).map Json.str).isEmpty = false := by
      simp [List.isEmpty_iff, hnil]
    simp [extract_user_message, hp, hc, hne, hnil, pyStrJoin_map_str]

theorem specTextParts_nil_iff (parts : List Json) :
    specTextParts parts = [] ↔ parts.any partNonemptyText = false := by
  induction parts with
  | nil => simp [specTextParts]
  | cons part rest ih =>
    cases part with
    | obj p =>
      rcases hk : jlookup p "kind" with _ | k
      · simp [specTextParts, partNonemptyText, hk, ih]
      · cases k with
        | str s =>
          by_cases hs : s = "text"
          · subst hs
            rcases ht : jlookup p "text" with _ | t
            · simp [specTextParts, partNonemptyText, hk, ht, ih]
            · cases t with
              | str u =>
                by_cases hu : u.isEmpty
                · simp [specTextParts, partNonemptyText, hk, ht, hu, ih]
                · simp [specTextParts, partNonemptyText, hk, ht, hu, ih]
              | null => simp [specTextParts, partNonemptyText, hk, ht, ih]
              | bool b => simp [specTextParts, partNonemptyText, hk, ht, ih]
              | num n => simp [specTextParts, partNonemptyText, hk, ht, ih]
              | arr es => simp [specTextParts, partNonemptyText, hk, ht, ih]
              | obj fs => simp [specTextParts, partNonemptyText, hk, ht, ih]
          · simp [specTextParts, partNonemptyText, hk, hs, ih]
        | null => simp [specTextParts, partNonemptyText, hk, ih]
        | bool b => simp [specTextParts, partNonemptyText, hk, ih]
        | num n => simp [specTextParts, partNonemptyText, hk, ih]
        | arr es => simp [specTextParts, partNonemptyText, hk, ih]
        | obj fs => simp [specTextParts, partNonemptyText, hk, ih]
    | null => simp [specTextParts, partNonemptyText, ih]
    | bool b => simp [specTextParts, partNonemptyText, ih]
    | num n => simp [specTextParts, partNonemptyText, ih]
    | str s => simp [specTextParts, partNonemptyText, ih]
    | arr es => simp [specTextParts, partNonemptyText, ih]

theorem specTextParts_ne_nil (parts : List Json)
    (hne : parts.any partNonemptyText = true) : specTextParts parts ≠ [] := by
  intro hh
  have hf := (specTextParts_nil_iff parts).mp hh
  rw [hf] at hne
  exact Bool.noConfusion hne

theorem extract_via_collect (parts : List Json) :
    extract_user_message (.obj [("parts", .arr parts)]) =
      match collectTextParts parts with
      | .ok text_parts =>
        if text_parts.isEmpty then
          .error "No text content found in message parts"
        else pyStrJoin text_parts
      | .error e => .error e := rfl

theorem collectTextParts_skip_kindless (pre post : List Json) (p : JObj)
    (hk : jlookup p "kind" = none) :
    collectTextParts (pre ++ .obj p :: post) = collectTextParts (pre ++ post) := by
  induction pre with
  | nil => simp [collectTextParts, hk]
  | cons q pre ih =>
    cases q with
    | obj q' =>
      rcases hq : jlookup q' "kind" with _ | k
      · simp only [List.cons_append, collectTextParts, hq]
        exact ih
      · cases k with
        | str s =>
          simp only [List.cons_append, collectTextParts, hq]
          have ih' : collectTextParts (pre.append (Json.obj p :: post)) =
              collectTextParts (pre.append post) := ih
          rw [ih']
        | null =>
          simp only [List.cons_append, collectTextParts, hq]
          exact ih
        | bool b =>
          simp only [List.cons_append, collectTextParts, hq]
          exact ih
        | num n =>
          simp only [List.cons_append, collectTextParts, hq]
          exact ih
        | arr es =>
          simp only [List.cons_append, collectTextParts, hq]
          exact ih
        | obj fs =>
          simp only [List.cons_append, collectTextParts, hq]
          exact ih
    | null => rfl
    | bool b => rfl
    | num n => rfl
    | str s => rfl
    | arr es => rfl

theorem model_dump_jsonrpc (r : JsonRpcResponse) :
    jlookup r.model_dump "jsonrpc" = some (.str r.jsonrpc) := by
  rcases r with ⟨j, res, err, i⟩
  cases res <;> cases err <;> rfl

theorem model_dump_id (r : JsonRpcResponse) :
    jlookup r.model_dump "id" = some (rpcIdJson r.id) := by
  rcases r with ⟨j, res, err, i⟩
  cases res <;> cases err <;> rfl

theorem model_dump_result (r : JsonRpcResponse) :
    jlookup r.model_dump "result" = r.result := by
  rcases r with ⟨j, res, err, i⟩
  cases res <;> cases err <;> rfl

theorem model_dump_error (r : JsonRpcResponse) :
    jlookup r.model_dump "error" = r.error := by
  rcases r with ⟨j, res, err, i⟩
  cases res <;> cases err <;> rfl

theorem envelope_ok (r : JsonRpcResponse)
    (hx : r.result.isSome = true ∧ r.error.isSome = false
          ∨ r.result.isSome = false ∧ r.error.isSome = true) :
    (jlookup r.model_dump "jsonrpc").isSome = true
    ∧ (jlookup r.model_dump "id").isSome = true
    ∧ ((jlookup r.model_dump "result").isSome = true
         ∧ (jlookup r.model_dump "error").isSome = false
       ∨ (jlookup r.model_dump "result").isSome = false
         ∧ (jlookup r.model_dump "error").isSome = true) := by
  rw [model_dump_jsonrpc, model_dump_id, model_dump_result, model_dump_error]
  exact ⟨rfl, rfl, hx⟩

theorem handle_message_send_failed (agentRun : String → Except String String)
    (ids : Ids) (params : JObj) (msg : Json) (e : String) (ctx : Option String)
    (hmsg : (jlookup params "message").getD (.obj []) = msg)
    (hobj : msg.isObj = true)
    (hctx : validateContextId (jlookup params "contextId") = .ok ctx)
    (hfail : runTask agentRun msg = .error e) :
    handle_message_send agentRun ids params = .ok (failedTask ids msg ctx e) := by
  cases msg with
  | obj mo =>
    simp only [handle_message_send, hmsg, hfail, hctx]
    by_cases hmt : mo.isEmpty
    · simp [Json.truthy, hmt, validateHistory, failedTask]
    · simp [Json.truthy, hmt, validateHistory, Json.isObj, failedTask]
  | null => simp [Json.isObj] at hobj
  | bool b => simp [Json.isObj] at hobj
  | num n => simp [Json.isObj] at hobj
  | str s => simp [Json.isObj] at hobj
  | arr es => simp [Json.isObj] at hobj

theorem handle_message_send_completed (agentRun : String → Except String String)
    (ids : Ids) (params : JObj) (msg : Json) (text : String) (ctx : Option String)
    (hmsg : (jlookup params "message").getD (.obj []) = msg)
    (hobj : msg.isObj = true)
    (hctx : validateContextId (jlookup params "contextId") = .ok ctx)
    (hok : runTask agentRun msg = .ok text) :
    handle_message_send agentRun ids params = .ok (completedTask ids msg ctx text) := by
  cases msg with
  | obj mo =>
    simp only [handle_message_send, hmsg, hok, hctx]
    simp [validateHistory, Json.isObj, response_message, completedTask]
  | null => simp [Json.isObj] at hobj
  | bool b => simp [Json.isObj] at hobj
  | num n => simp [Json.isObj] at hobj
  | str s => simp [Json.isObj] at hobj
  | arr es => simp [Json.isObj] at hobj

/-- C7: for every message (with parts conforming to the `MessagePart`
data model) whose parts contain at least one part of kind "text" with
non-empty text, `extract_user_message` returns exactly the non-empty
texts of the "text"-kind parts, taken in the original order of the parts
sequence (the spec-side `specTextParts`) and joined with single-space
separators; parts of any other kind are skipped without error. -/
theorem C7_extract_joins_text_parts (m : JObj) (parts : List Json)
    (hp : jlookup m "parts" = some (.arr parts))
    (hwf : wfParts parts = true)
    (hne : parts.any partNonemptyText = true) :
    extract_user_message (.obj m) =
      .ok (String.intercalate " " (specTextParts parts)) := by
  rw [extract_eq_spec m parts hp hwf, if_neg (specTextParts_ne_nil parts hne)]

/-- C7 witness: a message mixing text, file, data and empty-text parts
extracts to the space-joined non-empty texts, in order. -/
theorem C7_extract_joins_text_parts_witness :
    extract_user_message (.obj [("parts", .arr
      [.obj [("kind", .str "text"), ("text", .str "Hello")],
       .obj [("kind", .str "file")],
       .obj [("kind", .str "data"), ("text", .str "ignored")],
       .obj [("kind", .str "text"), ("text", .str "")],
       .obj [("kind", .str "text"), ("text", .str "world")]])]) =
      .ok "Hello world" :=
  C7_extract_joins_text_parts
    [("parts", .arr
      [.obj [("kind", .str "text"), ("text", .str "Hello")],
       .obj [("kind", .str "file")],
       .obj [("kind", .str "data"), ("text", .str "ignored")],
       .obj [("kind", .str "text"), ("text", .str "")],
       .obj [("kind", .str "text"), ("text", .str "world")]])]
    [.obj [("kind", .str "text"), ("text", .str "Hello")],
     .obj [("kind", .str "file")],
     .obj [("kind", .str "data"), ("text", .str "ignored")],
     .obj [("kind", .str "text"), ("text", .str "")],
     .obj [("kind", .str "text"), ("text", .str "world")]]
    rfl rfl rfl

/-- C10: a part whose mapping lacks the "kind" key contributes nothing
to the extracted text: deleting such a part from the parts sequence does
not change the result of `extract_user_message`; in particular the
message whose only part is the kindless mapping with text "hello" has no
text content, even though the `MessagePart` data model defaults kind to
"text". -/
theorem C10_kindless_part_skipped :
    (∀ (pre post : List Json) (p : JObj), jlookup p "kind" = none →
        extract_user_message (.obj [("parts", .arr (pre ++ .obj p :: post))]) =
          extract_user_message (.obj [("parts", .arr (pre ++ post))]))
    ∧ extract_user_message (.obj [("parts", .arr [.obj [("text", .str "hello")]])]) =
        .error "No text content found in message parts"
    ∧ ({ text := some "hello" } : MessagePart).kind = "text" := by
  refine ⟨?_, rfl, rfl⟩
  intro pre post p hk
  rw [extract_via_collect, extract_via_collect,
    collectTextParts_skip_kindless pre post p hk]

/-- C10 witness: the kindless part with text "hello" placed before a
real text part is skipped. -/
theorem C10_kindless_part_skipped_witness :
    extract_user_message
        (.obj [("parts", .arr [.obj [("text", .str "hello")], partTextHi])]) =
      extract_user_message (.obj [("parts", .arr [partTextHi])]) :=
  C10_kindless_part_skipped.1 [] [partTextHi] [("text", .str "hello")] rfl

/-- C3 counterexample: on the message whose only part has kind "file",
the failed Task metadata error is the capitalized string
"No text content found in message parts", which does not contain the
claimed lowercase substring "no text content". -/
theorem C3_counterexample_lowercase :
    handle_message_send agent0 ids0 paramsFileOnly =
      .ok (failedTask ids0 (.obj msgFileOnlyFields) none
        "No text content found in message parts")
    ∧ strContains "No text content found in message parts" "no text content" = false :=
  ⟨rfl, by decide⟩

/-- C3 (amended): for every message (conforming to the data model, with
a string-or-null contextId) whose parts contain no part of kind "text",
or whose text parts all have empty text, extraction fails and the
returned Task has status.state "failed", an empty artifacts list, and a
metadata error value containing the substring "No text content"
(capitalized as the source writes it). -/
theorem C3_no_text_failed_task (agentRun : String → Except String String)
    (ids : Ids) (params m : JObj) (parts : List Json) (ctx : Option String)
    (hm : jlookup params "message" = some (.obj m))
    (hctx : validateContextId (jlookup params "contextId") = .ok ctx)
    (hp : jlookup m "parts" = some (.arr parts))
    (hwf : wfParts parts = true)
    (hno : parts.any partNonemptyText = false) :
    handle_message_send agentRun ids params =
      .ok (failedTask ids (.obj m) ctx "No text content found in message parts")
    ∧ (failedTask ids (.obj m) ctx "No text content found in message parts").status.state
        = "failed"
    ∧ (failedTask ids (.obj m) ctx "No text content found in message parts").artifacts
        = []
    ∧ jlookup
        (failedTask ids (.obj m) ctx "No text content found in message parts").metadata
        "error" = some (.str "No text content found in message parts")
    ∧ strContains "No text content found in message parts" "No text content" = true := by
  have hnil : specTextParts parts = [] := (specTextParts_nil_iff parts).mpr hno
  have hex : extract_user_message (.obj m) =
      .error "No text content found in message parts" := by
    rw [extract_eq_spec m parts hp hwf, if_pos hnil]
  have hfail : runTask agentRun (.obj m) =
      .error "No text content found in message parts" := by
    rw [runTask, hex]
  refine ⟨?_, rfl, rfl, rfl, by decide⟩
  exact handle_message_send_failed agentRun ids params (.obj m)
    "No text content found in message parts" ctx (by rw [hm]; rfl) rfl hctx hfail

/-- C3 witness for the amended statement, at the file-part-only
message. -/
theorem C3_no_text_failed_task_witness :
    handle_message_send agentDown ids0 paramsFileOnly =
      .ok (failedTask ids0 (.obj msgFileOnlyFields) none
        "No text content found in message parts")
    ∧ (failedTask ids0 (.obj msgFileOnlyFields) none
        "No text content found in message parts").status.state = "failed"
    ∧ (failedTask ids0 (.obj msgFileOnlyFields) none
        "No text content found in message parts").artifacts = []
    ∧ jlookup (failedTask ids0 (.obj msgFileOnlyFields) none
        "No text content found in message parts").metadata "error"
        = some (.str "No text content found in message parts")
    ∧ strContains "No text content found in message parts" "No text content" = true :=
  C3_no_text_failed_task agentDown ids0 paramsFileOnly msgFileOnlyFields
    [.obj [("kind", .str "file")]] none rfl rfl rfl rfl rfl

/-- C1: for every `message/send` request (message an object conforming
to the data model, contextId a string or null) whose message contains at
least one non-empty text part, and whose external agent capability call
succeeds returning a reply text, the task executor returns a Task with
status.state "completed", exactly one artifact whose single text part
carries the agent reply text, and a two-element history consisting of
the inbound message followed by the synthesized agent-role reply
message. -/
theorem C1_completed_task (agentRun : String → Except String String)
    (ids : Ids) (params m : JObj) (parts : List Json) (ctx : Option String)
    (reply : String)
    (hm : jlookup params "message" = some (.obj m))
    (hctx : validateContextId (jlookup params "contextId") = .ok ctx)
    (hp : jlookup m "parts" = some (.arr parts))
    (hwf : wfParts parts = true)
    (hne : parts.any partNonemptyText = true)
    (hagent : agentRun (String.intercalate " " (specTextParts parts)) = .ok reply) :
    handle_message_send agentRun ids params =
      .ok { id := ids.taskId
            contextId := ctx
            status :=
              { state := "completed"
                message := some { role := "agent", messageId := ids.statusMsgId
                                  parts := [{ text := some "Task completed successfully" }] } }
            history := [.obj m, response_message ids.replyMsgId reply]
            artifacts := [{ artifactId := ids.artifactId
                            parts := [{ kind := "text", text := some reply }]
                            metadata := [] }]
            metadata := [] } := by
  have hex : extract_user_message (.obj m) =
      .ok (String.intercalate " " (specTextParts parts)) := by
    rw [extract_eq_spec m parts hp hwf, if_neg (specTextParts_ne_nil parts hne)]
  have hok : runTask agentRun (.obj m) = .ok reply := by
    rw [runTask, hex]
    exact hagent
  exact handle_message_send_completed agentRun ids params (.obj m) reply ctx
    (by rw [hm]; rfl) rfl hctx hok

/-- C1 witness: the Paris example request with a succeeding agent. -/
theorem C1_completed_task_witness :
    handle_message_send agent0 ids0 paramsParis =
      .ok { id := "task-0"
            contextId := none
            status :=
              { state := "completed"
                message := some { role := "agent", messageId := "status-0"
                                  parts := [{ text := some "Task completed successfully" }] } }
            history := [.obj messageParis,
                        response_message "reply-0" "Paris has the Eiffel Tower."]
            artifacts := [{ artifactId := "artifact-0"
                            parts := [{ kind := "text",
                                        text := some "Paris has the Eiffel Tower." }]
                            metadata := [] }]
            metadata := [] } :=
  C1_completed_task agent0 ids0 paramsParis messageParis
    [.obj [("kind", .str "text"), ("text", .str "Tell me about Paris")]]
    none "Paris has the Eiffel Tower." rfl rfl rfl rfl rfl rfl

/-- C4: for every `message/send` request whose message param is an
object (or absent) and whose contextId is a string or null, the task
executor returns a Task whose contextId is exactly the received
contextId (null when the param is absent or null), on both the completed
and the failed path (the agent capability is arbitrary) — never
synthesized. -/
theorem C4_contextId_round_trip (agentRun : String → Except String String)
    (ids : Ids) (params : JObj) (msg : Json) (ctx : Option String)
    (hmsg : (jlookup params "message").getD (.obj []) = msg)
    (hobj : msg.isObj = true)
    (hctx : validateContextId (jlookup params "contextId") = .ok ctx) :
    (handle_message_send agentRun ids params).toOption.map Task.contextId
      = some ctx := by
  rcases hr : runTask agentRun msg with e | t
  · rw [handle_message_send_failed agentRun ids params msg e ctx hmsg hobj hctx hr]
    rfl
  · rw [handle_message_send_completed agentRun ids params msg t ctx hmsg hobj hctx hr]
    rfl

/-- C4 witness: a request carrying contextId "ctx-42" round-trips it
into the returned Task. -/
theorem C4_contextId_round_trip_witness :
    (handle_message_send agent0 ids0 paramsHiCtx).toOption.map Task.contextId
      = some (some "ctx-42") :=
  C4_contextId_round_trip agent0 ids0 paramsHiCtx msgHi (some "ctx-42")
    rfl rfl rfl

/-- C2: for every exception raised during task execution of a
`message/send` request (extraction failure or agent-capability failure,
with the request message an object or absent and contextId a string or
null), the JSON-RPC call still succeeds: the dispatcher returns HTTP 200
with result the serialized failed Task (status.state "failed", status
message text `Error: <description>`, artifacts empty, metadata error =
the description) and no JSON-RPC error member. -/
theorem C2_task_failure_http_200 (agentRun : String → Except String String)
    (ids : Ids) (o : JObj) (req : JsonRpcRequest) (msg : Json) (e : String)
    (ctx : Option String)
    (hreq : parseJsonRpcRequest o = .ok req)
    (hmethod : req.method = "message/send")
    (hmsg : (jlookup req.params "message").getD (.obj []) = msg)
    (hobj : msg.isObj = true)
    (hctx : validateContextId (jlookup req.params "contextId") = .ok ctx)
    (hfail : runTask agentRun msg = .error e) :
    handle_a2a_jsonrpc agentRun ids (some (.obj o)) =
      .response 200
        (JsonRpcResponse.model_dump
          ⟨"2.0", some (failedTask ids msg ctx e).toJson, none, req.id⟩)
    ∧ jlookup
        (JsonRpcResponse.model_dump
          ⟨"2.0", some (failedTask ids msg ctx e).toJson, none, req.id⟩)
        "error" = none
    ∧ (failedTask ids msg ctx e).status.state = "failed"
    ∧ (failedTask ids msg ctx e).status.message
        = some { role := "agent", messageId := ids.statusMsgId
                 parts := [{ text := some ("Error: " ++ e) }] }
    ∧ (failedTask ids msg ctx e).artifacts = []
    ∧ jlookup (failedTask ids msg ctx e).metadata "error" = some (.str e) := by
  have hms := handle_message_send_failed agentRun ids req.params msg e ctx
    hmsg hobj hctx hfail
  refine ⟨?_, model_dump_error _, rfl, rfl, rfl, rfl⟩
  simp only [handle_a2a_jsonrpc, hreq, hmethod, hms]
  simp

/-- C2 witness: a well-formed request whose agent call times out yields
HTTP 200 with a failed Task and no error member. -/
theorem C2_task_failure_http_200_witness :
    handle_a2a_jsonrpc agentDown ids0 (some (.obj bodyHiFields)) =
      .response 200
        (JsonRpcResponse.model_dump
          ⟨"2.0",
           some (failedTask ids0 msgHi none "timeout contacting model provider").toJson,
           none, some (.num 9)⟩)
    ∧ jlookup
        (JsonRpcResponse.model_dump
          ⟨"2.0",
           some (failedTask ids0 msgHi none "timeout contacting model provider").toJson,
           none, some (.num 9)⟩)
        "error" = none
    ∧ (failedTask ids0 msgHi none "timeout contacting model provider").status.state
        = "failed"
    ∧ (failedTask ids0 msgHi none "timeout contacting model provider").status.message
        = some { role := "agent", messageId := "status-0"
                 parts := [{ text := some ("Error: " ++ "timeout contacting model provider") }] }
    ∧ (failedTask ids0 msgHi none "timeout contacting model provider").artifacts = []
    ∧ jlookup (failedTask ids0 msgHi none "timeout contacting model provider").metadata
        "error" = some (.str "timeout contacting model provider") :=
  C2_task_failure_http_200 agentDown ids0 bodyHiFields
    ⟨"2.0", "message/send", [("message", msgHi)], some (.num 9)⟩ msgHi
    "timeout contacting model provider" none rfl rfl rfl rfl rfl rfl

/-- C6 counterexample: the `message/send` request whose params object
lacks the `message` member is not rejected with -32602/HTTP 400: the
dispatcher answers HTTP 200 with a failed Task as `result` and no
`error` member (the `MessageSendParams` model that would require
`message` is never consulted). -/
theorem C6_counterexample_http200 :
    handle_a2a_jsonrpc agent0 ids0 (some (.obj bodyNoMessageFields)) =
      .response 200 dumpNoMessage
    ∧ jlookup dumpNoMessage "error" = none
    ∧ jlookup dumpNoMessage "result"
        = some (failedTask ids0 (.obj []) none
            "No text content found in message parts").toJson :=
  ⟨rfl, rfl, rfl⟩

/-- C6 (amended): for every `message/send` request whose params lacks
the `message` member (and whose contextId, if present, is a string or
null), the dispatcher responds HTTP 200 with result a failed Task whose
metadata error is "No text content found in message parts" — not a
-32602/HTTP 400 protocol error. -/
theorem C6_missing_message_failed_task (agentRun : String → Except String String)
    (ids : Ids) (o : JObj) (req : JsonRpcRequest) (ctx : Option String)
    (hreq : parseJsonRpcRequest o = .ok req)
    (hmethod : req.method = "message/send")
    (hnomsg : jlookup req.params "message" = none)
    (hctx : validateContextId (jlookup req.params "contextId") = .ok ctx) :
    handle_a2a_jsonrpc agentRun ids (some (.obj o)) =
      .response 200
        (JsonRpcResponse.model_dump
          ⟨"2.0",
           some (failedTask ids (.obj []) ctx
             "No text content found in message parts").toJson,
           none, req.id⟩) := by
  have hms := handle_message_send_failed agentRun ids req.params (.obj [])
    "No text content found in message parts" ctx (by rw [hnomsg]; rfl) rfl hctx rfl
  simp only [handle_a2a_jsonrpc, hreq, hmethod, hms]
  simp

/-- C6 witness for the amended statement. -/
theorem C6_missing_message_failed_task_witness :
    handle_a2a_jsonrpc agent0 ids0 (some (.obj bodyNoMessageFields)) =
      .response 200
        (JsonRpcResponse.model_dump
          ⟨"2.0",
           some (failedTask ids0 (.obj []) none
             "No text content found in message parts").toJson,
           none, some (.num 1)⟩) :=
  C6_missing_message_failed_task agent0 ids0 bodyNoMessageFields
    ⟨"2.0", "message/send", [], some (.num 1)⟩ none rfl rfl rfl rfl

/-- C8: for every request that validates with method "tasks/get",
regardless of its params, the dispatcher returns HTTP status 501 with a
JSON-RPC error whose code is -32601. -/
theorem C8_tasks_get_501 (agentRun : String → Except String String)
    (ids : Ids) (o : JObj) (req : JsonRpcRequest)
    (hreq : parseJsonRpcRequest o = .ok req)
    (hmethod : req.method = "tasks/get") :
    handle_a2a_jsonrpc agentRun ids (some (.obj o)) =
      .response 501
        (JsonRpcResponse.model_dump
          ⟨"2.0", none,
           some (errorBody (-32601) "Method not implemented: tasks/get"),
           req.id⟩) := by
  simp only [handle_a2a_jsonrpc, hreq, hmethod]
  simp

/-- C8 witness: a concrete `tasks/get` request with non-empty params. -/
theorem C8_tasks_get_501_witness :
    handle_a2a_jsonrpc agent0 ids0 (some (.obj bodyTasksGetFields)) =
      .response 501
        (JsonRpcResponse.model_dump
          ⟨"2.0", none,
           some (errorBody (-32601) "Method not implemented: tasks/get"),
           some (.num 2)⟩) :=
  C8_tasks_get_501 agent0 ids0 bodyTasksGetFields
    ⟨"2.0", "tasks/get", [("foo", .num 3)], some (.num 2)⟩ rfl rfl

/-- C9: every serialized `JsonRpcResponse` emitted by the dispatcher
contains the `jsonrpc` and `id` keys (the id value possibly null) and
exactly one of the `result` and `error` keys, the other being absent
from the mapping rather than present with a null value. -/
theorem C9_envelope_exactly_one (agentRun : String → Except String String)
    (ids : Ids) (rawBody : Option Json) (s : Nat) (b : JObj)
    (h : handle_a2a_jsonrpc agentRun ids rawBody = .response s b) :
    (jlookup b "jsonrpc").isSome = true
    ∧ (jlookup b "id").isSome = true
    ∧ ((jlookup b "result").isSome = true ∧ (jlookup b "error").isSome = false
       ∨ (jlookup b "result").isSome = false ∧ (jlookup b "error").isSome = true) := by
  cases rawBody with
  | none => simp [handle_a2a_jsonrpc] at h
  | some body =>
    cases body with
    | obj o =>
      rcases hp : parseJsonRpcRequest o with pe | req
      · simp only [handle_a2a_jsonrpc, hp] at h
        rcases hb : bestEffortId (.obj o) with be | i
        · simp [hb] at h
        · simp only [hb] at h
          injection h with h1 h2
          subst h2
          exact envelope_ok _ (Or.inr ⟨rfl, rfl⟩)
      · simp only [handle_a2a_jsonrpc, hp] at h
        by_cases hm1 : req.method = "message/send"
        · rw [if_pos hm1] at h
          rcases hms : handle_message_send agentRun ids req.params with me | t
          · simp only [hms] at h
            rcases hb : bestEffortId (.obj o) with be | i
            · simp [hb] at h
            · simp only [hb] at h
              injection h with h1 h2
              subst h2
              exact envelope_ok _ (Or.inr ⟨rfl, rfl⟩)
          · simp only [hms] at h
            injection h with h1 h2
            subst h2
            exact envelope_ok _ (Or.inl ⟨rfl, rfl⟩)
        · rw [if_neg hm1] at h
          by_cases hm2 : req.method = "tasks/get"
          · rw [if_pos hm2] at h
            injection h with h1 h2
            subst h2
            exact envelope_ok _ (Or.inr ⟨rfl, rfl⟩)
          · rw [if_neg hm2] at h
            injection h with h1 h2
            subst h2
            exact envelope_ok _ (Or.inr ⟨rfl, rfl⟩)
    | null =>
      injection h with h1 h2
      subst h2
      exact envelope_ok _ (Or.inr ⟨rfl, rfl⟩)
    | bool bb =>
      injection h with h1 h2
      subst h2
      exact envelope_ok _ (Or.inr ⟨rfl, rfl⟩)
    | num n =>
      injection h with h1 h2
      subst h2
      exact envelope_ok _ (Or.inr ⟨rfl, rfl⟩)
    | str s2 =>
      injection h with h1 h2
      subst h2
      exact envelope_ok _ (Or.inr ⟨rfl, rfl⟩)
    | arr es =>
      injection h with h1 h2
      subst h2
      exact envelope_ok _ (Or.inr ⟨rfl, rfl⟩)

/-- C9 witness: the envelope invariant at the concrete `tasks/get`
response. -/
theorem C9_envelope_exactly_one_witness :
    (jlookup dumpTasksGet "jsonrpc").isSome = true
    ∧ (jlookup dumpTasksGet "id").isSome = true
    ∧ ((jlookup dumpTasksGet "result").isSome = true
         ∧ (jlookup dumpTasksGet "error").isSome = false
       ∨ (jlookup dumpTasksGet "result").isSome = false
         ∧ (jlookup dumpTasksGet "error").isSome = true) :=
  C9_envelope_exactly_one agent0 ids0 (some (.obj bodyTasksGetFields)) 501
    dumpTasksGet rfl

/-- C5: the claim is what the spec intends, but the code has a slip. On
a request body that fails to decode as JSON, `await request.json()`
raises before the local `body` is assigned, and the `except ValueError`
handler then evaluates `body.get("id")`, raising `UnboundLocalError`
which escapes the endpoint: the framework answers with a bare 500, not
the claimed HTTP 400 / code -32602 JSON-RPC response. Separately, a body
that decodes to a JSON non-object makes `JsonRpcRequest(**body)` raise
`TypeError`, which the generic handler maps to -32603/HTTP 500 instead
of the claimed -32602/HTTP 400. -/
theorem C5_parse_failure_unhandled :
    handle_a2a_jsonrpc agent0 ids0 none =
      .unhandled "UnboundLocalError: local variable body referenced before assignment"
    ∧ handle_a2a_jsonrpc agent0 ids0 (some (.num 5)) =
      .response 500
        (JsonRpcResponse.model_dump
          ⟨"2.0", none,
           some (errorBody (-32603) "Internal error: request body is not a mapping"),
           none⟩) :=
  ⟨rfl, rfl⟩

end A2A
